import Mathlib

/-!
Verification of the uav-h2-supply-control firmware against its specification.

This file gives a shallow embedding, in Lean 4, of the parts of the C++
source that the verified properties speak about:

* the shared frame codec (`proto/FrameCodec.cpp`, file `src/unnamed/part_009`,
  identical headers in `NanoESP32_GroundGateway/src/proto/FrameCodec.h` and
  `NanoESP32_AirGateway/src/proto/FrameCodec.h`);
* the controller's mode computation (`Nano33BLE_Controller/src/ctrl/ModelManager.cpp`
  and the duplicate `ctrl/ModeManager.cpp` in `src/unnamed/part_003`);
* the safety interlock (`util/SafetyManager.cpp`, embedded in
  `Nano33BLE_Controller/src/ctrl/ControlModes.h` lines 79-110);
* the controller's UART link handler (`Nano33BLE_Controller/src/drivers/UartLink.cpp`);
* the time-proportional valve update (`src/hw/Actuators.cpp`, file
  `src/unnamed/part_000`);
* the ground relay's reliable-downlink engine
  (`NanoESP32_GroundGateway.ino`, embedded in
  `NanoESP32_GroundGateway/src/proto/FrameCodec.h` lines 304-411).

Modelling conventions:
* machine integers are `Nat` with explicit `% 2^w` where wraparound matters;
  `u32` differences `a - b` are modelled by `msub a b = (a + 2^32 - b) % 2^32`,
  which agrees with C unsigned subtraction for `a, b < 2^32`;
* an IEEE `float` is modelled by `Flt := Option ℚ`: `none` is a non-finite
  reading (NaN), `some q` a finite value with exact magnitude `q`.  The
  verified properties only involve comparisons against exact constants and
  exact copies/clamps of values, never rounding, so exact rationals are
  faithful for them.  Where the C code does float arithmetic (the AUTO
  proportional branch) the model computes exactly; no property depends on
  the value that branch produces;
* byte buffers are `List Nat`; the parser's `body_` array is written one
  byte at a time at index `body_pos_`, starting from 0 on each frame, so the
  written prefix is modelled by a list that grows by one element per store.
-/

namespace FrameCodec

/-- Sync octet 1 (0x55), `FrameCodec.h`. -/
def SYNC1 : Nat := 0x55

/-- Sync octet 2 (0xAA), `FrameCodec.h`. -/
def SYNC2 : Nat := 0xAA

/-- Maximum payload size, `FrameCodec.h`. -/
def MAX_PAYLOAD : Nat := 220

/-- One bit-round of the Modbus CRC-16 inner loop:
`if (crc & 1) crc = (crc >> 1) ^ 0xA001; else crc >>= 1;`. -/
def crcBit (crc : Nat) : Nat :=
  if crc % 2 = 1 then (crc / 2) ^^^ 0xA001 else crc / 2

/-- `n` iterations of the CRC bit round. -/
def crcBits : Nat → Nat → Nat
  | 0, crc => crc
  | n + 1, crc => crcBits n (crcBit crc)

/-- One data byte of the CRC: `crc ^= data[i]` then 8 bit rounds. -/
def crcByte (crc b : Nat) : Nat := crcBits 8 (crc ^^^ b)

/-- `crc16_modbus` from `proto/FrameCodec.cpp`: fold over the data with
initial value 0xFFFF. -/
def crc16_modbus (data : List Nat) : Nat := data.foldl crcByte 0xFFFF

/-- `FrameCodec::encode`: the byte sequence written into `out_buf` (the
success case).  `len = payload_len + 4` is a `uint8_t` cast, hence `% 256`;
the CRC is computed over `out_buf[2 .. 2+3+payload_len)`, i.e. over
`len, msg_type, seq, payload`. -/
def encode (msg_type seq : Nat) (payload : List Nat) : List Nat :=
  let len := (payload.length + 4) % 256
  let crc := crc16_modbus (len :: msg_type :: seq :: payload)
  SYNC1 :: SYNC2 :: len :: msg_type :: seq :: (payload ++ [crc % 256, crc / 256 % 256])

/-- `FrameCodec::encode` including the capacity test
`if (out_cap < total) return 0;` with `total = 3 + len`. -/
def encodeChecked (msg_type seq : Nat) (payload : List Nat) (out_cap : Nat) :
    Option (List Nat) :=
  let len := (payload.length + 4) % 256
  if out_cap < 3 + len then none else some (encode msg_type seq payload)

/-- Parser states from `FrameCodec.h`. -/
inductive PState
  | waitSync1
  | waitSync2
  | waitLen
  | waitBody
deriving DecidableEq, Repr

/-- `FrameCodec::FrameView`; the payload pointer into `body_` is modelled by
the byte list it points at. -/
structure FrameView where
  msg_type : Nat
  seq : Nat
  payload : List Nat
  payload_len : Nat
deriving DecidableEq, Repr

/-- `FrameCodec::Parser` state: `state_`, `len_`, `body_pos_`, and the
prefix of `body_` written since the current frame started. -/
structure Parser where
  state : PState
  len : Nat
  body_pos : Nat
  body : List Nat
deriving DecidableEq, Repr

/-- `Parser::reset`: back to WAIT_SYNC1 with `len_ = 0`, `body_pos_ = 0`
(the `body_` storage itself is not cleared by the C code). -/
def Parser.reset (p : Parser) : Parser :=
  { p with state := .waitSync1, len := 0, body_pos := 0 }

/-- A freshly constructed parser (the member initialisers in `FrameCodec.h`). -/
def initParser : Parser := ⟨.waitSync1, 0, 0, []⟩

/-- `Parser::feed`, one byte at a time; returns the new parser state and the
emitted frame, if any. -/
def Parser.feed (p : Parser) (b : Nat) : Parser × Option FrameView :=
  match p.state with
  | .waitSync1 =>
      (if b = SYNC1 then { p with state := .waitSync2 } else p, none)
  | .waitSync2 =>
      (if b = SYNC2 then { p with state := .waitLen } else p.reset, none)
  | .waitLen =>
      if b < 4 ∨ b > MAX_PAYLOAD + 4 then (p.reset, none)
      else ({ p with len := b, body_pos := 0, body := [], state := .waitBody }, none)
  | .waitBody =>
      let body := p.body ++ [b]
      let pos := p.body_pos + 1
      if pos < p.len then ({ p with body := body, body_pos := pos }, none)
      else
        let msg_type := body.getD 0 0
        let seq := body.getD 1 0
        let payload_len := p.len - 4
        let crc_rx := body.getD (p.len - 2) 0 + 256 * body.getD (p.len - 1) 0
        let payload := (body.drop 2).take payload_len
        let crc_calc := crc16_modbus (p.len :: msg_type :: seq :: payload)
        if crc_calc = crc_rx then (p.reset, some ⟨msg_type, seq, payload, payload_len⟩)
        else (p.reset, none)

/-- Feed a whole byte list, collecting every emitted frame in order. -/
def feedAll : Parser → List Nat → Parser × List FrameView
  | p, [] => (p, [])
  | p, b :: rest =>
      match p.feed b with
      | (p1, f) =>
        match feedAll p1 rest with
        | (p2, fs) => (p2, f.toList ++ fs)

end FrameCodec

namespace FrameCodec

/-- The CRC bit round keeps the accumulator below 2^16. -/
theorem crcBit_lt {c : Nat} (h : c < 65536) : crcBit c < 65536 := by
  unfold crcBit
  split
  · have hx : c / 2 ^^^ 0xA001 < 2 ^ 16 :=
      Nat.xor_lt_two_pow (Nat.lt_of_le_of_lt (Nat.div_le_self _ _) (by norm_num [h]))
        (by norm_num)
    simpa using hx
  · omega

/-- Iterated CRC bit rounds keep the accumulator below 2^16. -/
theorem crcBits_lt (n : Nat) : ∀ {c : Nat}, c < 65536 → crcBits n c < 65536 := by
  induction n with
  | zero => intro c h; simpa [crcBits] using h
  | succ k ih => intro c h; exact ih (crcBit_lt h)

/-- Absorbing a data byte keeps the CRC accumulator below 2^16. -/
theorem crcByte_lt {c b : Nat} (hc : c < 65536) (hb : b < 256) : crcByte c b < 65536 := by
  have hx : c ^^^ b < 2 ^ 16 :=
    Nat.xor_lt_two_pow (by norm_num [hc]) (Nat.lt_of_lt_of_le hb (by norm_num))
  exact crcBits_lt 8 (by simpa using hx)

/-- The Modbus CRC of a byte list fits in 16 bits. -/
theorem crc16_lt {l : List Nat} (hb : ∀ x ∈ l, x < 256) : crc16_modbus l < 65536 := by
  unfold crc16_modbus
  have key : ∀ (l' : List Nat), (∀ x ∈ l', x < 256) →
      ∀ c, c < 65536 → l'.foldl crcByte c < 65536 := by
    intro l'
    induction l' with
    | nil => intro _ c hc; simpa using hc
    | cons a as ih =>
      intro h c hc
      simp only [List.foldl_cons]
      exact ih (fun x hx => h x (List.mem_cons_of_mem _ hx)) _
        (crcByte_lt hc (h a (List.mem_cons_self _ _)))
  exact key l hb 0xFFFF (by norm_num)

/-- Indexing an appended list past the first part. -/
theorem getD_append_add (xs ys : List Nat) (i d : Nat) :
    (xs ++ ys).getD (xs.length + i) d = ys.getD i d := by
  induction xs with
  | nil => simp
  | cons a as ih =>
    have hsh : as.length + 1 + i = (as.length + i) + 1 := by omega
    simp only [List.cons_append, List.length_cons, hsh, List.getD_cons_succ]
    exact ih

/-- `feed` in state WAIT_SYNC1. -/
theorem feed_waitSync1 (p : Parser) (hp : p.state = .waitSync1) (b : Nat) :
    p.feed b = (if b = SYNC1 then { p with state := .waitSync2 } else p, none) := by
  unfold Parser.feed; rw [hp]

/-- `feed` in state WAIT_SYNC2. -/
theorem feed_waitSync2 (p : Parser) (hp : p.state = .waitSync2) (b : Nat) :
    p.feed b = (if b = SYNC2 then { p with state := .waitLen } else p.reset, none) := by
  unfold Parser.feed; rw [hp]

/-- `feed` in state WAIT_LEN. -/
theorem feed_waitLen (p : Parser) (hp : p.state = .waitLen) (b : Nat) :
    p.feed b =
      if b < 4 ∨ b > MAX_PAYLOAD + 4 then (p.reset, none)
      else ({ p with len := b, body_pos := 0, body := [], state := .waitBody }, none) := by
  unfold Parser.feed; rw [hp]

/-- `feed` in state WAIT_BODY when the body is not yet complete. -/
theorem feed_waitBody_cont (p : Parser) (hp : p.state = .waitBody) (b : Nat)
    (h : p.body_pos + 1 < p.len) :
    p.feed b = ({ p with body := p.body ++ [b], body_pos := p.body_pos + 1 }, none) := by
  unfold Parser.feed; rw [hp]; simp [h]

/-- One step of `feedAll`. -/
theorem feedAll_cons (p : Parser) (b : Nat) (rest : List Nat) :
    feedAll p (b :: rest) =
      ((feedAll (p.feed b).1 rest).1,
        (p.feed b).2.toList ++ (feedAll (p.feed b).1 rest).2) := by
  rcases h1 : p.feed b with ⟨p1, f⟩
  rcases h2 : feedAll p1 rest with ⟨p2, fs⟩
  simp [feedAll, h1, h2]

/-- `feedAll` over a concatenation splits into two runs. -/
theorem feedAll_append (xs : List Nat) : ∀ (p : Parser) (ys : List Nat),
    feedAll p (xs ++ ys) =
      ((feedAll (feedAll p xs).1 ys).1,
        (feedAll p xs).2 ++ (feedAll (feedAll p xs).1 ys).2) := by
  induction xs with
  | nil => intro p ys; simp [feedAll]
  | cons b bs ih =>
    intro p ys
    simp [feedAll_cons, ih]

/-- Feeding a chunk of body bytes that does not complete the frame just
appends them to the body buffer. -/
theorem feedAll_body_chunk (chunk : List Nat) :
    ∀ (ln pos : Nat) (bd rest : List Nat), pos + chunk.length < ln →
      feedAll ⟨.waitBody, ln, pos, bd⟩ (chunk ++ rest) =
        feedAll ⟨.waitBody, ln, pos + chunk.length, bd ++ chunk⟩ rest := by
  induction chunk with
  | nil => intro ln pos bd rest _; simp
  | cons c cs ih =>
    intro ln pos bd rest h
    have hlen : (c :: cs).length = cs.length + 1 := by simp
    have hcont : pos + 1 < ln := by
      rw [hlen] at h; omega
    rw [List.cons_append, feedAll_cons,
      feed_waitBody_cont ⟨.waitBody, ln, pos, bd⟩ rfl c hcont]
    have harith : pos + 1 + cs.length = pos + (c :: cs).length := by simp; omega
    have hbd : (bd ++ [c]) ++ cs = bd ++ (c :: cs) := by simp
    simp only []
    rw [ih ln (pos + 1) (bd ++ [c]) rest (by rw [hlen] at h; omega), harith, hbd]
    simp [feedAll]

/-- Feeding one encoded frame into any parser currently in WAIT_SYNC1 emits
exactly that frame and leaves the parser back in WAIT_SYNC1. -/
theorem feedAll_encode (p : Parser) (hp : p.state = .waitSync1)
    (m s : Nat) (pl : List Nat) (hm : m < 256) (hs : s < 256)
    (hpl : pl.length ≤ 220) (hb : ∀ x ∈ pl, x < 256) :
    (feedAll p (encode m s pl)).2 = [⟨m, s, pl, pl.length⟩] ∧
    (feedAll p (encode m s pl)).1.state = .waitSync1 := by
  have hLlt : pl.length + 4 < 256 := by omega
  have hbytes : ∀ x ∈ (pl.length + 4) :: m :: s :: pl, x < 256 := by
    intro x hx
    simp only [List.mem_cons] at hx
    rcases hx with h | h | h | h
    · omega
    · omega
    · omega
    · exact hb x h
  set crc := crc16_modbus ((pl.length + 4) :: m :: s :: pl) with hC
  have hcrclt : crc < 65536 := crc16_lt hbytes
  have hEnc : encode m s pl =
      SYNC1 :: SYNC2 :: (pl.length + 4) :: m :: s ::
        (pl ++ [crc % 256, crc / 256 % 256]) := by
    simp only [encode, Nat.mod_eq_of_lt hLlt, hC]
  rw [hEnc]
  rw [feedAll_cons, feed_waitSync1 p hp SYNC1, if_pos rfl]
  rw [feedAll_cons (p := { p with state := .waitSync2 })]
  rw [feed_waitSync2 _ rfl SYNC2, if_pos rfl]
  rw [feedAll_cons (p := { p with state := .waitLen })]
  rw [feed_waitLen _ rfl (pl.length + 4),
    if_neg (by simp only [MAX_PAYLOAD]; omega)]
  have hsplit : m :: s :: (pl ++ [crc % 256, crc / 256 % 256]) =
      (m :: s :: (pl ++ [crc % 256])) ++ [crc / 256 % 256] := by simp
  rw [hsplit]
  rw [feedAll_body_chunk (m :: s :: (pl ++ [crc % 256])) (pl.length + 4) 0 []
    [crc / 256 % 256]
    (by simp only [List.length_cons, List.length_append, List.length_nil]; omega)]
  have hpos : (0:Nat) + (m :: s :: (pl ++ [crc % 256])).length = pl.length + 3 := by
    simp only [List.length_cons, List.length_append, List.length_nil]; omega
  rw [hpos, List.nil_append]
  have hdivlt : crc / 256 < 256 := by omega
  have hrx : crc % 256 + 256 * (crc / 256 % 256) = crc := by
    rw [Nat.mod_eq_of_lt hdivlt, Nat.mod_add_div]
  have hfeed : Parser.feed
      ⟨.waitBody, pl.length + 4, pl.length + 3, m :: s :: (pl ++ [crc % 256])⟩
      (crc / 256 % 256) =
      (⟨.waitSync1, 0, 0, m :: s :: (pl ++ [crc % 256])⟩,
        some ⟨m, s, pl, pl.length⟩) := by
    have hbody : (m :: s :: (pl ++ [crc % 256])) ++ [crc / 256 % 256] =
        ([m, s] ++ pl) ++ [crc % 256, crc / 256 % 256] := by simp
    have hnlt : ¬ (pl.length + 3 + 1 < pl.length + 4) := by omega
    have h4 : pl.length + 4 - 4 = pl.length := by omega
    have hdrop : (([m, s] ++ pl) ++ [crc % 256, crc / 256 % 256]).drop 2 =
        pl ++ [crc % 256, crc / 256 % 256] := by simp
    have htake : (pl ++ [crc % 256, crc / 256 % 256]).take pl.length = pl :=
      List.take_left _ _
    have hg2 : (([m, s] ++ pl) ++ [crc % 256, crc / 256 % 256]).getD
        (pl.length + 4 - 2) 0 = crc % 256 := by
      have hidx : pl.length + 4 - 2 = ([m, s] ++ pl).length + 0 := by
        simp only [List.length_append, List.length_cons, List.length_nil]; omega
      rw [hidx, getD_append_add]
      rfl
    have hg3 : (([m, s] ++ pl) ++ [crc % 256, crc / 256 % 256]).getD
        (pl.length + 4 - 1) 0 = crc / 256 % 256 := by
      have hidx : pl.length + 4 - 1 = ([m, s] ++ pl).length + 1 := by
        simp only [List.length_append, List.length_cons, List.length_nil]; omega
      rw [hidx, getD_append_add]
      rfl
    have hg0 : ([m, s] ++ pl ++ [crc % 256, crc / 256 % 256]).getD 0 0 = m := rfl
    have hg1 : ([m, s] ++ pl ++ [crc % 256, crc / 256 % 256]).getD 1 0 = s := rfl
    simp only [Parser.feed, hbody, hnlt, if_false, h4, hdrop, htake, hg2, hg3]
    simp only [hg0, hg1, hrx, ← hC, eq_self_iff_true, if_true]
    simp [Parser.reset]
  rw [feedAll_cons, hfeed]
  simp [feedAll]

end FrameCodec
namespace FrameCodec

/-- Bounds invariant of the streaming parser: while assembling a body,
`body_pos_ < len_` and `4 ≤ len_ ≤ MAX_PAYLOAD + 4`. -/
def ParserInv (p : Parser) : Prop :=
  p.state = .waitBody → p.body_pos < p.len ∧ 4 ≤ p.len ∧ p.len ≤ MAX_PAYLOAD + 4

/-- `feed` preserves the parser bounds invariant. -/
theorem feed_ParserInv (p : Parser) (b : Nat) (h : ParserInv p) :
    ParserInv (p.feed b).1 := by
  obtain ⟨st, ln, pos, bd⟩ := p
  cases st with
  | waitSync1 =>
    by_cases hb : b = SYNC1 <;> simp [Parser.feed, ParserInv, hb]
  | waitSync2 =>
    by_cases hb : b = SYNC2 <;> simp [Parser.feed, Parser.reset, ParserInv, hb]
  | waitLen =>
    by_cases hcond : b < 4 ∨ b > MAX_PAYLOAD + 4
    · simp [Parser.feed, Parser.reset, ParserInv, hcond]
    · simp only [Parser.feed, if_neg hcond]
      intro _
      simp only [MAX_PAYLOAD] at hcond ⊢
      omega
  | waitBody =>
    have hinv := h rfl
    by_cases hlt : pos + 1 < ln
    · simp only [Parser.feed, if_pos hlt]
      intro _
      exact ⟨hlt, hinv.2.1, hinv.2.2⟩
    · simp only [Parser.feed, if_neg hlt]
      split <;> simp [Parser.reset, ParserInv]

/-- Any frame `feed` emits has payload length at most MAX_PAYLOAD. -/
theorem feed_emit_le (p : Parser) (b : Nat) (h : ParserInv p) (fv : FrameView)
    (hf : (p.feed b).2 = some fv) : fv.payload_len ≤ MAX_PAYLOAD := by
  obtain ⟨st, ln, pos, bd⟩ := p
  cases st with
  | waitSync1 => simp [Parser.feed] at hf
  | waitSync2 => simp [Parser.feed] at hf
  | waitLen =>
    simp only [Parser.feed] at hf
    split at hf <;> simp at hf
  | waitBody =>
    have hinv := h rfl
    simp only [Parser.feed] at hf
    split at hf
    · simp at hf
    · split at hf
      · simp only [Prod.snd] at hf
        have := Option.some.inj hf
        subst this
        simp only [MAX_PAYLOAD] at hinv ⊢
        omega
      · simp at hf

/-- The bounds invariant holds along any byte stream, and every emitted
frame has payload length at most MAX_PAYLOAD. -/
theorem feedAll_ParserInv (bytes : List Nat) : ∀ (p : Parser), ParserInv p →
    ParserInv (feedAll p bytes).1 ∧
      ∀ fv ∈ (feedAll p bytes).2, fv.payload_len ≤ MAX_PAYLOAD := by
  induction bytes with
  | nil =>
    intro p h
    refine ⟨h, ?_⟩
    simp [feedAll]
  | cons b rest ih =>
    intro p h
    rw [feedAll_cons]
    have h1 := feed_ParserInv p b h
    obtain ⟨h2, h3⟩ := ih (p.feed b).1 h1
    refine ⟨h2, ?_⟩
    intro fv hfv
    simp only [List.mem_append] at hfv
    rcases hfv with hfv | hfv
    · rcases hopt : (p.feed b).2 with _ | f
      · simp [hopt] at hfv
      · simp only [hopt, Option.toList_some, List.mem_singleton] at hfv
        subst hfv
        exact feed_emit_le p b h fv hopt
    · exact h3 fv hfv

end FrameCodec

/-- Claim C3: for every msg_type, seq, and payload with payload_len ≤ 220 and
an output buffer of capacity ≥ payload_len + 7, `FrameCodec::encode` succeeds,
and feeding the produced bytes one at a time into a fresh
`FrameCodec::Parser` yields exactly one emitted FrameView whose msg_type,
seq, payload_len and payload bytes equal the encoded triple. -/
theorem frame_roundtrip (msg_type seq : Nat) (payload : List Nat)
    (hm : msg_type < 256) (hs : seq < 256) (hpl : payload.length ≤ 220)
    (hb : ∀ x ∈ payload, x < 256) (out_cap : Nat)
    (hcap : payload.length + 7 ≤ out_cap) :
    FrameCodec.encodeChecked msg_type seq payload out_cap
        = some (FrameCodec.encode msg_type seq payload) ∧
    (FrameCodec.feedAll FrameCodec.initParser
        (FrameCodec.encode msg_type seq payload)).2
        = [⟨msg_type, seq, payload, payload.length⟩] := by
  constructor
  · unfold FrameCodec.encodeChecked
    rw [Nat.mod_eq_of_lt (by omega)]
    rw [if_neg (by omega)]
  · exact (FrameCodec.feedAll_encode _ rfl _ _ _ hm hs hpl hb).1

/-- Witness for C3 at msg_type 0x10, seq 7, payload [0x01], capacity 8. -/
theorem frame_roundtrip_witness :
    FrameCodec.encodeChecked 0x10 7 [1] 8 = some (FrameCodec.encode 0x10 7 [1]) ∧
    (FrameCodec.feedAll FrameCodec.initParser (FrameCodec.encode 0x10 7 [1])).2
        = [⟨0x10, 7, [1], 1⟩] :=
  frame_roundtrip 0x10 7 [1] (by decide) (by decide) (by decide)
    (by decide) 8 (by decide)

/-- Claim C10: every store into the parser body buffer happens at an index
`body_pos_` strictly below the accepted length byte `len_`, which WAIT_LEN
constrained to `4 ≤ len_ ≤ 224` (the size of the `body_` array); every
emitted FrameView has `payload_len = len_ - 4 ≤ 220`. -/
theorem parser_body_bounds (bytes : List Nat) :
    ((FrameCodec.feedAll FrameCodec.initParser bytes).1.state
          = FrameCodec.PState.waitBody →
      (FrameCodec.feedAll FrameCodec.initParser bytes).1.body_pos
          < (FrameCodec.feedAll FrameCodec.initParser bytes).1.len ∧
      4 ≤ (FrameCodec.feedAll FrameCodec.initParser bytes).1.len ∧
      (FrameCodec.feedAll FrameCodec.initParser bytes).1.len ≤ 224) ∧
    ∀ fv ∈ (FrameCodec.feedAll FrameCodec.initParser bytes).2,
      fv.payload_len ≤ 220 := by
  have h := FrameCodec.feedAll_ParserInv bytes FrameCodec.initParser
    (by intro hx; exact absurd hx (by decide))
  constructor
  · intro hstate
    obtain ⟨h1, h2, h3⟩ := h.1 hstate
    exact ⟨h1, h2, by simpa [FrameCodec.MAX_PAYLOAD] using h3⟩
  · intro fv hfv
    simpa [FrameCodec.MAX_PAYLOAD] using h.2 fv hfv

/-- Witness for C10: a partial frame leaves the parser mid-body with
`body_pos_ < len_`, and the heartbeat frame round-trips with payload_len 0. -/
theorem parser_body_bounds_witness :
    (FrameCodec.feedAll FrameCodec.initParser [0x55, 0xAA, 0x04]).1.body_pos
        < (FrameCodec.feedAll FrameCodec.initParser [0x55, 0xAA, 0x04]).1.len ∧
    (⟨0x23, 1, [], 0⟩ : FrameCodec.FrameView).payload_len ≤ 220 :=
  ⟨((parser_body_bounds [0x55, 0xAA, 0x04]).1 (by decide)).1,
    (parser_body_bounds (FrameCodec.encode 0x23 1 [])).2 ⟨0x23, 1, [], 0⟩
      (by decide)⟩

/-- Claim C4 (amended): the parser tolerates garbage octets preceding a frame
whenever that garbage leaves it in WAIT_SYNC1, and on a parse failure (wrong
sync2, out-of-range length) it resets to WAIT_SYNC1 without emitting and
rescans only from the next octet; octets already consumed are not replayed. -/
theorem parser_resync :
    (∀ (g : List Nat) (m s : Nat) (pl : List Nat), m < 256 → s < 256 →
        pl.length ≤ 220 → (∀ x ∈ pl, x < 256) →
        (FrameCodec.feedAll FrameCodec.initParser g).1.state
            = FrameCodec.PState.waitSync1 →
        (FrameCodec.feedAll FrameCodec.initParser
            (g ++ FrameCodec.encode m s pl)).2
          = (FrameCodec.feedAll FrameCodec.initParser g).2
              ++ [⟨m, s, pl, pl.length⟩]) ∧
    (∀ (p : FrameCodec.Parser) (b : Nat),
        p.state = FrameCodec.PState.waitSync2 → b ≠ FrameCodec.SYNC2 →
        p.feed b = (p.reset, none)) ∧
    (∀ (p : FrameCodec.Parser) (b : Nat),
        p.state = FrameCodec.PState.waitLen → (b < 4 ∨ 224 < b) →
        p.feed b = (p.reset, none)) ∧
    (∀ (p : FrameCodec.Parser) (b : Nat),
        p.state = FrameCodec.PState.waitBody → ¬ p.body_pos + 1 < p.len →
        FrameCodec.crc16_modbus (p.len :: (p.body ++ [b]).getD 0 0 ::
            (p.body ++ [b]).getD 1 0 ::
            ((p.body ++ [b]).drop 2).take (p.len - 4)) ≠
          (p.body ++ [b]).getD (p.len - 2) 0 +
            256 * (p.body ++ [b]).getD (p.len - 1) 0 →
        p.feed b = (p.reset, none)) := by
  refine ⟨?_, ?_, ?_, ?_⟩
  · intro g m s pl hm hs hpl hb hstate
    rw [FrameCodec.feedAll_append]
    have h := FrameCodec.feedAll_encode _ hstate m s pl hm hs hpl hb
    rw [h.1]
  · intro p b hp hb
    rw [FrameCodec.feed_waitSync2 p hp b, if_neg hb]
  · intro p b hp hcond
    rw [FrameCodec.feed_waitLen p hp b,
      if_pos (by simpa [FrameCodec.MAX_PAYLOAD] using hcond)]
  · intro p b hp hpos hcrc
    obtain ⟨st, ln, pos, bd⟩ := p
    have hst : st = FrameCodec.PState.waitBody := hp
    subst hst
    simp only [FrameCodec.Parser.feed]
    rw [if_neg hpos, if_neg hcrc]

/-- Witness for C4 (amended): two garbage octets followed by an encoded
heartbeat frame; the frame is emitted. -/
theorem parser_resync_witness :
    (FrameCodec.feedAll FrameCodec.initParser
        ([3, 5] ++ FrameCodec.encode 0x23 1 [])).2
      = (FrameCodec.feedAll FrameCodec.initParser [3, 5]).2
          ++ [⟨0x23, 1, [], 0⟩] :=
  parser_resync.1 [3, 5] 0x23 1 [] (by decide) (by decide) (by decide)
    (by decide) (by decide)

set_option maxRecDepth 10000 in
/-- Counterexample to claim C4 as stated.  The stream starts `0x55 0x00`,
so the parser fails in WAIT_SYNC2 at the second octet; the remainder of the
stream is `0x55 0xAA 0x10` (a plausible header whose 16-byte body is never
CRC-valid) followed by the complete valid frame `encode 0x23 1 []` and 9
filler octets.  Every byte of the valid frame appears strictly after the
failure point, yet the parser emits nothing, because it does not rescan
consumed octets. -/
theorem parser_resync_counterexample :
    (FrameCodec.feedAll FrameCodec.initParser
        (FrameCodec.encode 0x23 1 [])).2.length = 1 ∧
    (FrameCodec.feedAll FrameCodec.initParser
        (0x55 :: 0x00 :: 0x55 :: 0xAA :: 16 ::
          (FrameCodec.encode 0x23 1 [] ++ [0, 0, 0, 0, 0, 0, 0, 0, 0]))).2
      = [] := by
  exact ⟨by decide, by decide⟩

/-- 2^32, the modulus of `unsigned long` / `uint32_t` arithmetic on the
target boards. -/
def U32 : Nat := 4294967296

/-- C unsigned 32-bit subtraction `a - b` for `a, b < 2^32`. -/
def msub (a b : Nat) : Nat := (a + U32 - b) % U32

/-- Model of an IEEE float wherever the claims need one: `none` is a
non-finite value (NaN), `some q` a finite value of exact magnitude `q`. -/
abbrev Flt : Type := Option ℚ

/-- `!isnan(x) && x > m`: a NaN never compares greater. -/
def fgt (x : Flt) (m : ℚ) : Bool :=
  match x with
  | none => false
  | some q => decide (q > m)

/-- Float subtraction; NaN propagates. -/
def fsub : Flt → Flt → Flt
  | some a, some b => some (a - b)
  | _, _ => none

/-- Float multiplication; NaN propagates. -/
def fmul : Flt → Flt → Flt
  | some a, some b => some (a * b)
  | _, _ => none

/-- `ControlMode` from `ctrl/ControlModes.h`. -/
inductive ControlMode
  | MANUAL
  | AUTO
  | SAFE
deriving DecidableEq, Repr

/-- `Proto::ManualCmd` (the fields the control path uses), `proto/Messages.h`. -/
structure ManualCmd where
  has_heater_cmd : Bool
  heater_power_pct : Flt
  has_valve_cmd : Bool
  valve_opening_pct : Flt
  has_pump_temp_cmd : Bool
  pump_target_temp_c : Flt
deriving DecidableEq, Repr

/-- `Proto::Setpoints` (the fields the control path uses), `proto/Messages.h`. -/
structure Setpoints where
  target_temp_c : Flt
  target_pressure_pa : Flt
  target_valve_opening_pct : Flt
  target_pump_temp_c : Flt
  enable_temp_ctrl : Bool
  enable_pressure_ctrl : Bool
  enable_valve_ctrl : Bool
  enable_pump_ctrl : Bool
deriving DecidableEq, Repr

/-- `ControlState` from `ctrl/ControlState.h`. -/
structure ControlState where
  mode : ControlMode
  setpoints : Setpoints
  manual_cmd : ManualCmd
  last_cmd_ms : Nat
  last_setpoint_ms : Nat
  last_manual_ms : Nat
  link_alive : Bool
  last_link_heartbeat_ms : Nat
deriving DecidableEq, Repr

/-- `Proto::Telemetry` (the fields the control path uses); `temp_c` is the
sensor array, read at indices below `temp_count`. -/
structure Telemetry where
  timestamp_ms : Nat
  temp_c : Nat → Flt
  temp_count : Nat
  pressure_pa : Flt
  heater_power_pct : Flt
  valve_opening_pct : Flt

/-- `Proto::Outputs`, `proto/Messages.h`. -/
structure Outputs where
  heater_power_pct : Flt
  valve_opening_pct : Flt
  pump_target_temp_c : Flt
deriving DecidableEq, Repr

/-- `clampPct` from `ModelManager.cpp`: `if (v < 0) v = 0; if (v > 100) v = 100;`.
A NaN fails both comparisons and passes through. -/
def clampPct (v : Flt) : Flt :=
  match v with
  | none => none
  | some q => some (if q < 0 then 0 else if q > 100 then 100 else q)

namespace ModeManager

/-- `Kp_heater_`, set to 5.0 in `ModeManager::begin` (`ModelManager.cpp`). -/
def Kp_heater : ℚ := 5

/-- `ModeManager::compute` from
`Nano33BLE_Controller/src/ctrl/ModelManager.cpp` (the variant with
`clampPct`): SAFE zeroes everything; MANUAL applies flagged commands with
percent clamping (pump temperature passes through unclamped); AUTO runs a
proportional heater law on `temp_c[0]`. -/
def compute (state : ControlState) (telem : Telemetry) : Outputs :=
  match state.mode with
  | .SAFE => ⟨some 0, some 0, some 0⟩
  | .MANUAL =>
      { heater_power_pct :=
          if state.manual_cmd.has_heater_cmd then
            clampPct state.manual_cmd.heater_power_pct
          else some 0
        valve_opening_pct :=
          if state.manual_cmd.has_valve_cmd then
            clampPct state.manual_cmd.valve_opening_pct
          else some 0
        pump_target_temp_c :=
          if state.manual_cmd.has_pump_temp_cmd then
            state.manual_cmd.pump_target_temp_c
          else some 0 }
  | .AUTO =>
      { heater_power_pct :=
          if state.setpoints.enable_temp_ctrl ∧ telem.temp_count > 0 then
            clampPct (fmul (some Kp_heater)
              (fsub state.setpoints.target_temp_c (telem.temp_c 0)))
          else some 0
        valve_opening_pct := some 0
        pump_target_temp_c := some 0 }

end ModeManager

/-- `AutoController::compute` (`ctrl/AutoController.cpp`): placeholder that
zeroes all outputs. -/
def AutoController.compute (_state : ControlState) (_telem : Telemetry) : Outputs :=
  ⟨some 0, some 0, some 0⟩

namespace ModeManagerDup

/-- `ModeManager::compute` from the duplicate `ctrl/ModeManager.cpp`
(`src/unnamed/part_003`): outputs default to zero; MANUAL copies flagged
commands through unclamped; AUTO delegates to the placeholder
`AutoController`. -/
def compute (state : ControlState) (telem : Telemetry) : Outputs :=
  match state.mode with
  | .SAFE => ⟨some 0, some 0, some 0⟩
  | .MANUAL =>
      { heater_power_pct :=
          if state.manual_cmd.has_heater_cmd then
            state.manual_cmd.heater_power_pct
          else some 0
        valve_opening_pct :=
          if state.manual_cmd.has_valve_cmd then
            state.manual_cmd.valve_opening_pct
          else some 0
        pump_target_temp_c :=
          if state.manual_cmd.has_pump_temp_cmd then
            state.manual_cmd.pump_target_temp_c
          else some 0 }
  | .AUTO => AutoController.compute state telem

end ModeManagerDup

namespace SafetyManager

/-- `BoardConfig::LINK_TIMEOUT_MS` (`util/BoardConfig.h`). -/
def LINK_TIMEOUT_MS : Nat := 1500

/-- `max_temp_c_` member default (`util/SafetyManager.h`). -/
def max_temp_c : ℚ := 80

/-- Rule 1 of `SafetyManager::checkAndClamp` (`util/SafetyManager.cpp`):
`link_alive` after the timeout test
`if (state.link_alive && now_ms - state.last_link_heartbeat_ms > LINK_TIMEOUT_MS)`. -/
def linkAliveAfter (state : ControlState) (now_ms : Nat) : Bool :=
  if state.link_alive ∧ msub now_ms state.last_link_heartbeat_ms > LINK_TIMEOUT_MS
  then false else state.link_alive

/-- Rule 2 of `SafetyManager::checkAndClamp`: the overtemperature scan
`for (i = 0; i < telem.temp_count; ++i) if (!isnan(temp_c[i]) && temp_c[i] > max_temp_c_)`. -/
def overTemp (telem : Telemetry) : Bool :=
  (List.range telem.temp_count).any (fun i => fgt (telem.temp_c i) max_temp_c)

/-- The mode at exit of `SafetyManager::checkAndClamp`: SAFE when the link is
(now) dead or some monitored finite temperature exceeds the limit, otherwise
unchanged. -/
def modeAfter (state : ControlState) (telem : Telemetry) (now_ms : Nat) : ControlMode :=
  if overTemp telem then ControlMode.SAFE
  else if linkAliveAfter state now_ms then state.mode else ControlMode.SAFE

/-- `SafetyManager::checkAndClamp` from `util/SafetyManager.cpp`: (1) link
timeout drops `link_alive`, and a dead link forces SAFE; (2) any non-NaN
temperature above `max_temp_c_` at an index below `temp_count` forces SAFE;
(3) in SAFE mode all outputs are zeroed. -/
def checkAndClamp (state : ControlState) (telem : Telemetry) (out : Outputs)
    (now_ms : Nat) : ControlState × Outputs :=
  let state' := { state with link_alive := linkAliveAfter state now_ms,
                             mode := modeAfter state telem now_ms }
  if modeAfter state telem now_ms = ControlMode.SAFE
  then (state', ⟨some 0, some 0, some 0⟩)
  else (state', out)

/-- The state returned by `checkAndClamp` carries `modeAfter` as its mode. -/
theorem checkAndClamp_fst_mode (state : ControlState) (telem : Telemetry)
    (out : Outputs) (now_ms : Nat) :
    (checkAndClamp state telem out now_ms).1.mode = modeAfter state telem now_ms := by
  unfold checkAndClamp
  split <;> rfl

/-- The state returned by `checkAndClamp` carries `linkAliveAfter` as its
liveness flag. -/
theorem checkAndClamp_fst_link (state : ControlState) (telem : Telemetry)
    (out : Outputs) (now_ms : Nat) :
    (checkAndClamp state telem out now_ms).1.link_alive
      = linkAliveAfter state now_ms := by
  unfold checkAndClamp
  split <;> rfl

/-- In SAFE mode `checkAndClamp` zeroes all outputs. -/
theorem checkAndClamp_snd_safe (state : ControlState) (telem : Telemetry)
    (out : Outputs) (now_ms : Nat)
    (h : modeAfter state telem now_ms = ControlMode.SAFE) :
    (checkAndClamp state telem out now_ms).2 = ⟨some 0, some 0, some 0⟩ := by
  unfold checkAndClamp
  rw [if_pos h]

end SafetyManager

/-- Steps 3-4.5 of the controller loop (`Nano33BLE_Controller.ino`): mode
compute, safety clamp, then copy the post-clamp outputs into the telemetry
that is emitted (`g_telem.heater_power_pct = g_outputs.heater_power_pct;`
and the equivalent copy in `UartLink::sendTelemetry`).  Returns the state,
the outputs handed to `Actuators::apply`, and the telemetry copy. -/
def controllerTick (state : ControlState) (telem : Telemetry) (now : Nat) :
    ControlState × Outputs × Telemetry :=
  let out0 := ModeManager.compute state telem
  let so := SafetyManager.checkAndClamp state telem out0 now
  (so.1, so.2,
    { telem with heater_power_pct := so.2.heater_power_pct,
                 valve_opening_pct := so.2.valve_opening_pct })

/-- Claim C1: for every tick, if `state.mode` is SAFE after
`SafetyManager::checkAndClamp` returns, then the Outputs handed to the
actuators and copied into the emitted telemetry are identically zero,
regardless of the latest ManualCmd or Setpoints contents. -/
theorem safe_mode_outputs_zero (state : ControlState) (telem : Telemetry) (now : Nat)
    (h : (controllerTick state telem now).1.mode = ControlMode.SAFE) :
    (controllerTick state telem now).2.1 = ⟨some 0, some 0, some 0⟩ ∧
    (controllerTick state telem now).2.2.heater_power_pct = some 0 ∧
    (controllerTick state telem now).2.2.valve_opening_pct = some 0 := by
  simp only [controllerTick] at h ⊢
  rw [SafetyManager.checkAndClamp_fst_mode] at h
  rw [SafetyManager.checkAndClamp_snd_safe state telem _ now h]
  exact ⟨rfl, rfl, rfl⟩

/-- Witness for C1: a MANUAL-mode state with a pending 75% heater command
but a dead link, so the tick forces SAFE and outputs are zeroed. -/
theorem safe_mode_outputs_zero_witness :
    (controllerTick
        ⟨ControlMode.MANUAL, ⟨none, none, none, none, true, false, false, false⟩,
          ⟨true, some 75, true, some 40, false, none⟩, 0, 0, 0, false, 0⟩
        ⟨0, fun _ => none, 0, none, none, none⟩ 0).2.1 = ⟨some 0, some 0, some 0⟩ ∧
    (controllerTick
        ⟨ControlMode.MANUAL, ⟨none, none, none, none, true, false, false, false⟩,
          ⟨true, some 75, true, some 40, false, none⟩, 0, 0, 0, false, 0⟩
        ⟨0, fun _ => none, 0, none, none, none⟩ 0).2.2.heater_power_pct = some 0 ∧
    (controllerTick
        ⟨ControlMode.MANUAL, ⟨none, none, none, none, true, false, false, false⟩,
          ⟨true, some 75, true, some 40, false, none⟩, 0, 0, 0, false, 0⟩
        ⟨0, fun _ => none, 0, none, none, none⟩ 0).2.2.valve_opening_pct = some 0 :=
  safe_mode_outputs_zero _ _ _ (by rfl)

/-- Claim C2: after `SafetyManager::checkAndClamp(state, telem, out, now_ms)`:
a live link whose heartbeat is older than 1500 ms goes dead; a dead link or
any finite monitored temperature above 80 °C forces SAFE mode; and if every
monitored reading is NaN or at most 80 °C, the overtemperature rule does not
change the mode (NaN never triggers it). -/
theorem safety_interlock_rules (state : ControlState) (telem : Telemetry)
    (out : Outputs) (now : Nat) :
    (state.link_alive = true →
      msub now state.last_link_heartbeat_ms > 1500 →
      (SafetyManager.checkAndClamp state telem out now).1.link_alive = false) ∧
    ((SafetyManager.checkAndClamp state telem out now).1.link_alive = false ∨
        (∃ i < telem.temp_count, ∃ q : ℚ, telem.temp_c i = some q ∧ q > 80) →
      (SafetyManager.checkAndClamp state telem out now).1.mode
        = ControlMode.SAFE) ∧
    ((∀ i < telem.temp_count, telem.temp_c i = none ∨
        ∃ q : ℚ, telem.temp_c i = some q ∧ q ≤ 80) →
      (SafetyManager.checkAndClamp state telem out now).1.link_alive = true →
      (SafetyManager.checkAndClamp state telem out now).1.mode = state.mode) := by
  refine ⟨?_, ?_, ?_⟩
  · intro hla htime
    rw [SafetyManager.checkAndClamp_fst_link]
    unfold SafetyManager.linkAliveAfter
    rw [if_pos ⟨hla, by simpa [SafetyManager.LINK_TIMEOUT_MS] using htime⟩]
  · intro h
    rw [SafetyManager.checkAndClamp_fst_mode]
    rcases h with hlink | ⟨i, hi, q, hq, hgt⟩
    · rw [SafetyManager.checkAndClamp_fst_link] at hlink
      unfold SafetyManager.modeAfter
      split
      · rfl
      · simp [hlink]
    · have hot : SafetyManager.overTemp telem = true := by
        unfold SafetyManager.overTemp
        rw [List.any_eq_true]
        refine ⟨i, List.mem_range.mpr hi, ?_⟩
        simp [fgt, hq, SafetyManager.max_temp_c, hgt]
      unfold SafetyManager.modeAfter
      rw [if_pos hot]
  · intro hall hlink
    rw [SafetyManager.checkAndClamp_fst_link] at hlink
    rw [SafetyManager.checkAndClamp_fst_mode]
    have hot : SafetyManager.overTemp telem = false := by
      unfold SafetyManager.overTemp
      rw [List.any_eq_false]
      intro i hi
      rcases hall i (List.mem_range.mp hi) with hnan | ⟨q, hq, hle⟩
      · simp [fgt, hnan]
      · simp [fgt, hq, SafetyManager.max_temp_c]
        exact hle
    unfold SafetyManager.modeAfter
    rw [hot]
    simp [hlink]

/-- Witness for C2: a live link times out at 2000 ms; an 85 °C reading forces
SAFE; and with a single NaN reading plus a fresh link, MANUAL mode survives
the tick. -/
theorem safety_interlock_rules_witness :
    (SafetyManager.checkAndClamp
        ⟨ControlMode.MANUAL, ⟨none, none, none, none, true, false, false, false⟩,
          ⟨false, none, false, none, false, none⟩, 0, 0, 0, true, 0⟩
        ⟨0, fun _ => none, 0, none, none, none⟩
        ⟨some 0, some 0, some 0⟩ 2000).1.link_alive = false ∧
    (SafetyManager.checkAndClamp
        ⟨ControlMode.MANUAL, ⟨none, none, none, none, true, false, false, false⟩,
          ⟨false, none, false, none, false, none⟩, 0, 0, 0, true, 0⟩
        ⟨0, fun _ => some 85, 1, none, none, none⟩
        ⟨some 0, some 0, some 0⟩ 100).1.mode = ControlMode.SAFE ∧
    (SafetyManager.checkAndClamp
        ⟨ControlMode.MANUAL, ⟨none, none, none, none, true, false, false, false⟩,
          ⟨false, none, false, none, false, none⟩, 0, 0, 0, true, 0⟩
        ⟨0, fun _ => none, 1, none, none, none⟩
        ⟨some 0, some 0, some 0⟩ 100).1.mode = ControlMode.MANUAL := by
  refine ⟨?_, ?_, ?_⟩
  · exact (safety_interlock_rules _ _ _ _).1 rfl (by decide)
  · exact (safety_interlock_rules _ _ _ _).2.1
      (Or.inr ⟨0, by decide, 85, rfl, by norm_num⟩)
  · exact (safety_interlock_rules _ _ _ _).2.2
      (fun i _ => Or.inl rfl) (by rfl)

/-- Claim C8 (amended): in MANUAL mode the `ModelManager.cpp` variant of
`ModeManager::compute` sets each percent output to `clamp(command, 0, 100)`
when the presence flag is set and to 0 when it is not, passing
`pump_target_temp_c` through unclamped; the duplicate `ctrl/ModeManager.cpp`
variant applies the same presence gating but copies the command value
through WITHOUT clamping.  In both variants a MANUAL output field is
non-zero only if its presence flag is set. -/
theorem manual_mode_policy (state : ControlState) (telem : Telemetry)
    (h : state.mode = ControlMode.MANUAL) :
    (ModeManager.compute state telem).heater_power_pct =
      (if state.manual_cmd.has_heater_cmd then
        clampPct state.manual_cmd.heater_power_pct else some 0) ∧
    (ModeManager.compute state telem).valve_opening_pct =
      (if state.manual_cmd.has_valve_cmd then
        clampPct state.manual_cmd.valve_opening_pct else some 0) ∧
    (ModeManager.compute state telem).pump_target_temp_c =
      (if state.manual_cmd.has_pump_temp_cmd then
        state.manual_cmd.pump_target_temp_c else some 0) ∧
    (ModeManagerDup.compute state telem).heater_power_pct =
      (if state.manual_cmd.has_heater_cmd then
        state.manual_cmd.heater_power_pct else some 0) ∧
    (ModeManagerDup.compute state telem).valve_opening_pct =
      (if state.manual_cmd.has_valve_cmd then
        state.manual_cmd.valve_opening_pct else some 0) ∧
    (ModeManagerDup.compute state telem).pump_target_temp_c =
      (if state.manual_cmd.has_pump_temp_cmd then
        state.manual_cmd.pump_target_temp_c else some 0) ∧
    ((ModeManager.compute state telem).heater_power_pct ≠ some 0 →
      state.manual_cmd.has_heater_cmd = true) ∧
    ((ModeManager.compute state telem).valve_opening_pct ≠ some 0 →
      state.manual_cmd.has_valve_cmd = true) ∧
    ((ModeManagerDup.compute state telem).heater_power_pct ≠ some 0 →
      state.manual_cmd.has_heater_cmd = true) ∧
    ((ModeManagerDup.compute state telem).valve_opening_pct ≠ some 0 →
      state.manual_cmd.has_valve_cmd = true) := by
  simp only [ModeManager.compute, ModeManagerDup.compute, h]
  refine ⟨?_, ?_, ?_, ?_, ?_, ?_, ?_, ?_, ?_, ?_⟩ <;>
    first
      | trivial
      | (intro hne
         by_contra hflag
         simp only [Bool.not_eq_true] at hflag
         simp [hflag] at hne)

/-- Witness for C8 at a MANUAL state with heater flagged at 150 % and valve
unflagged. -/
theorem manual_mode_policy_witness :
    (ModeManager.compute
        ⟨ControlMode.MANUAL, ⟨none, none, none, none, true, false, false, false⟩,
          ⟨true, some 150, false, some 40, false, none⟩, 0, 0, 0, true, 0⟩
        ⟨0, fun _ => none, 0, none, none, none⟩).heater_power_pct =
      (if true then clampPct (some 150) else some 0) ∧
    (ModeManagerDup.compute
        ⟨ControlMode.MANUAL, ⟨none, none, none, none, true, false, false, false⟩,
          ⟨true, some 150, false, some 40, false, none⟩, 0, 0, 0, true, 0⟩
        ⟨0, fun _ => none, 0, none, none, none⟩).heater_power_pct =
      (if true then some 150 else some 0) := by
  refine ⟨?_, ?_⟩
  · exact (manual_mode_policy _ _ rfl).1
  · exact (manual_mode_policy _ _ rfl).2.2.2.1

/-- Counterexample to claim C8 as stated: the duplicate
`ctrl/ModeManager.cpp` (`src/unnamed/part_003`) does not clamp.  With a
flagged valve command of 150 %, its MANUAL output is 150, whereas
`clamp(150, 0, 100) = 100`. -/
theorem manual_mode_policy_counterexample :
    (ModeManagerDup.compute
        ⟨ControlMode.MANUAL, ⟨none, none, none, none, true, false, false, false⟩,
          ⟨false, none, true, some 150, false, none⟩, 0, 0, 0, true, 0⟩
        ⟨0, fun _ => none, 0, none, none, none⟩).valve_opening_pct = some 150 ∧
    clampPct (some 150) = some 100 ∧
    (some (150:ℚ) : Flt) ≠ (some (100:ℚ) : Flt) := by
  refine ⟨rfl, ?_, ?_⟩
  · norm_num [clampPct]
  · simp

/-- `VALVE_CYCLE_MS` from `src/hw/Actuators.cpp`. -/
def VALVE_CYCLE_MS : Nat := 500

/-- `updateValvePWM_Internal(percent, now)` from `src/hw/Actuators.cpp`:
clamp the percent, short-circuit 0 %/100 %, advance the cycle origin
`s_valveCycleStartMs` by whole cycles using one division and multiply
(unsigned 32-bit arithmetic), then drive the pin HIGH while the phase is
below the on-time.  Takes and returns the static `s_valveCycleStartMs`;
the Bool is the level written by `digitalWrite` (true = HIGH). -/
def updateValvePWM_Internal (percent : Int) (now t0 : Nat) : Nat × Bool :=
  let p := if percent < 0 then (0:Int) else if percent > 100 then 100 else percent
  if p = 0 then (t0, false)
  else if p = 100 then (t0, true)
  else
    let t0a :=
      if msub now t0 ≥ VALVE_CYCLE_MS then
        (t0 + msub now t0 / VALVE_CYCLE_MS * VALVE_CYCLE_MS) % U32
      else t0
    let phase := msub now t0a
    let onTime := VALVE_CYCLE_MS * p.toNat / 100
    (t0a, decide (phase < onTime))

/-- Advancing the reference of a u32 difference by `k ≤ msub a b` decreases
the difference by `k`. -/
theorem msub_advance (a b k : Nat) (ha : a < U32) (hb : b < U32)
    (hk : k ≤ msub a b) : msub a ((b + k) % U32) = msub a b - k := by
  unfold msub U32 at *
  omega

/-- Claim C5: the time-proportional valve update drives LOW for p ≤ 0, HIGH
for p ≥ 100, and otherwise advances the cycle origin in whole 500 ms steps
so that `now − t0 < 500` (mod 2^32) and drives HIGH exactly while
`now − t0 < ⌊500·p/100⌋`. -/
theorem valve_tpc (percent : Int) (now t0 : Nat) (hn : now < U32) (ht : t0 < U32) :
    (percent ≤ 0 → (updateValvePWM_Internal percent now t0).2 = false) ∧
    (percent ≥ 100 → (updateValvePWM_Internal percent now t0).2 = true) ∧
    (0 < percent → percent < 100 →
      msub now (updateValvePWM_Internal percent now t0).1 < 500 ∧
      (updateValvePWM_Internal percent now t0).2 =
        decide (msub now (updateValvePWM_Internal percent now t0).1
          < 500 * percent.toNat / 100)) := by
  refine ⟨?_, ?_, ?_⟩
  · intro hle
    have hp : (if percent < 0 then (0:Int) else if percent > 100 then 100 else percent) = 0 := by
      split
      · rfl
      · split <;> omega
    simp only [updateValvePWM_Internal, hp]
    simp
  · intro hge
    have hp : (if percent < 0 then (0:Int) else if percent > 100 then 100 else percent) = 100 := by
      split
      · omega
      · split
        · rfl
        · omega
    simp only [updateValvePWM_Internal, hp]
    simp
  · intro h0 h100
    have hp : (if percent < 0 then (0:Int) else if percent > 100 then 100 else percent) = percent := by
      split
      · omega
      · split
        · omega
        · rfl
    simp only [updateValvePWM_Internal, hp]
    rw [if_neg (by omega), if_neg (by omega)]
    by_cases hd : msub now t0 ≥ VALVE_CYCLE_MS
    · rw [if_pos hd]
      dsimp only
      have hk : msub now t0 / VALVE_CYCLE_MS * VALVE_CYCLE_MS ≤ msub now t0 :=
        Nat.div_mul_le_self _ _
      have hadv := msub_advance now t0
        (msub now t0 / VALVE_CYCLE_MS * VALVE_CYCLE_MS) hn ht hk
      simp only [hadv]
      constructor
      · simp only [VALVE_CYCLE_MS]
        omega
      · simp [VALVE_CYCLE_MS]
    · rw [if_neg hd]
      dsimp only
      constructor
      · simp only [VALVE_CYCLE_MS] at hd
        omega
      · simp [VALVE_CYCLE_MS]

/-- Witness for C5 at percent −5 (LOW), 120 (HIGH), and 30 with now = 1234,
t0 = 0: the origin advances to 1000 and the pin is LOW since the phase 234
is past the 150 ms on-time. -/
theorem valve_tpc_witness :
    (updateValvePWM_Internal (-5) 1234 0).2 = false ∧
    (updateValvePWM_Internal 120 1234 0).2 = true ∧
    (msub 1234 (updateValvePWM_Internal 30 1234 0).1 < 500 ∧
      (updateValvePWM_Internal 30 1234 0).2 =
        decide (msub 1234 (updateValvePWM_Internal 30 1234 0).1
          < 500 * (30:Int).toNat / 100)) :=
  ⟨(valve_tpc (-5) 1234 0 (by decide) (by decide)).1 (by decide),
   (valve_tpc 120 1234 0 (by decide) (by decide)).2.1 (by decide),
   (valve_tpc 30 1234 0 (by decide) (by decide)).2.2 (by decide) (by decide)⟩

/-- `LoRaLink::TxResult` (`lora/LoRaLink.h`). -/
inductive TxResult
  | ok
  | busy
  | fail
deriving DecidableEq, Repr

/-- `BoardConfig::CMD_ACK_TIMEOUT_MS` (ground gateway `util/BoardConfig.h`). -/
def CMD_ACK_TIMEOUT_MS : Nat := 400

/-- `BoardConfig::CMD_MAX_RETRY` (ground gateway `util/BoardConfig.h`). -/
def CMD_MAX_RETRY : Nat := 3

/-- `PendingCmd` from `NanoESP32_GroundGateway.ino` (frame bytes kept as a
list; the `len` field is the list length). -/
structure PendingCmd where
  active : Bool
  msg_type : Nat
  seq : Nat
  frame : List Nat
  last_send_ms : Nat
  retry : Nat
  sent_once : Bool
  busy_since_ms : Nat
  last_busy_warn_ms : Nat
deriving DecidableEq, Repr

/-- USB serial lines emitted by the reliable-downlink engine. -/
inductive CmdLine
  | warnBusy
  | failNoAck
  | retryLine
deriving DecidableEq, Repr

/-- `serviceReliableSend(now_ms)` from `NanoESP32_GroundGateway.ino`.  The
radio is external: `r` is the result `sendRawFrameEx` would return if a TX
attempt is made this call (in branches that do not transmit, `r` is unused).
Returns the updated `g_pending` and the `[CMD]` lines printed. -/
def serviceReliableSend (g : PendingCmd) (now_ms : Nat) (r : TxResult) :
    PendingCmd × List CmdLine :=
  if g.active = false then (g, [])
  else if g.sent_once = false then
    match r with
    | .ok | .fail => ({ g with sent_once := true, last_send_ms := now_ms }, [])
    | .busy =>
        let bs := if g.busy_since_ms = 0 then now_ms else g.busy_since_ms
        if msub now_ms bs > 3000 ∧ msub now_ms g.last_busy_warn_ms > 1000 then
          ({ g with busy_since_ms := bs, last_busy_warn_ms := now_ms },
            [CmdLine.warnBusy])
        else ({ g with busy_since_ms := bs }, [])
  else if msub now_ms g.last_send_ms < CMD_ACK_TIMEOUT_MS then (g, [])
  else if g.retry ≥ CMD_MAX_RETRY then
    ({ g with active := false }, [CmdLine.failNoAck])
  else
    match r with
    | .busy =>
        let bs := if g.busy_since_ms = 0 then now_ms else g.busy_since_ms
        if msub now_ms bs > 3000 ∧ msub now_ms g.last_busy_warn_ms > 1000 then
          ({ g with busy_since_ms := bs, last_busy_warn_ms := now_ms },
            [CmdLine.warnBusy])
        else ({ g with busy_since_ms := bs }, [])
    | .ok | .fail =>
        ({ g with retry := g.retry + 1, last_send_ms := now_ms,
                  busy_since_ms := 0 }, [CmdLine.retryLine])

/-- `expectsAck` from `NanoESP32_GroundGateway.ino`. -/
def expectsAck (msg_type : Nat) : Bool :=
  msg_type = 0x10 ∨ msg_type = 0x12 ∨ msg_type = 0x11

/-- Ground-relay sender state: `g_tx_seq` and `g_pending`. -/
structure GroundState where
  tx_seq : Nat
  pending : PendingCmd
deriving DecidableEq, Repr

/-- `startReliableSend(msg_type, payload, payload_len)` from
`NanoESP32_GroundGateway.ino`: take `seq = g_tx_seq++` (a plain `uint8_t`
post-increment), encode into a 256-byte buffer, install the PendingCommand
with `active = expectsAck(msg_type)`, then attempt one TX immediately with
result `r`.  Returns the new state and the C function's Bool return. -/
def startReliableSend (g : GroundState) (msg_type : Nat) (payload : List Nat)
    (now : Nat) (r : TxResult) : GroundState × Bool :=
  let seq := g.tx_seq % 256
  let tx_seq' := (g.tx_seq + 1) % 256
  match FrameCodec.encodeChecked msg_type seq payload 256 with
  | none => ({ g with tx_seq := tx_seq' }, false)
  | some frame =>
      let pend : PendingCmd :=
        { active := expectsAck msg_type, msg_type := msg_type, seq := seq,
          frame := frame, last_send_ms := 0, retry := 0, sent_once := false,
          busy_since_ms := 0, last_busy_warn_ms := 0 }
      match r with
      | .ok =>
          ({ tx_seq := tx_seq',
             pending := { pend with sent_once := true, last_send_ms := now } },
            true)
      | .fail =>
          ({ tx_seq := tx_seq',
             pending := { pend with sent_once := true, last_send_ms := now } },
            false)
      | .busy =>
          ({ tx_seq := tx_seq',
             pending := { pend with busy_since_ms := now } }, false)

/-- Claim C6: while a PendingCommand is active, the retry counter advances
only on an OK or FAIL TX attempt, never on BUSY (which also leaves
`last_send_ms` untouched); once `retry ≥ 3` with the 400 ms ACK timeout
expired, the service prints the FAIL line and deactivates, so retry never
exceeds 3. -/
theorem reliable_retry_budget (g : PendingCmd) (now : Nat) (r : TxResult) :
    (r = TxResult.busy →
      (serviceReliableSend g now r).1.retry = g.retry ∧
      (serviceReliableSend g now r).1.last_send_ms = g.last_send_ms) ∧
    ((serviceReliableSend g now r).1.retry ≠ g.retry → r ≠ TxResult.busy) ∧
    (g.retry ≤ 3 → (serviceReliableSend g now r).1.retry ≤ 3) ∧
    (g.active = true → g.sent_once = true →
      ¬ msub now g.last_send_ms < 400 → g.retry ≥ 3 →
      (serviceReliableSend g now r).2 = [CmdLine.failNoAck] ∧
      (serviceReliableSend g now r).1.active = false) := by
  have hbusy : r = TxResult.busy →
      (serviceReliableSend g now r).1.retry = g.retry ∧
      (serviceReliableSend g now r).1.last_send_ms = g.last_send_ms := by
    intro hr
    subst hr
    unfold serviceReliableSend
    dsimp only
    repeat' split
    all_goals exact ⟨rfl, rfl⟩
  refine ⟨hbusy, fun hch hr => hch (hbusy hr).1, ?_, ?_⟩
  · intro h3
    unfold serviceReliableSend
    repeat' split
    all_goals dsimp only
    all_goals repeat' split
    all_goals try exact h3
    all_goals simp only [CMD_MAX_RETRY] at *
    all_goals omega
  · intro ha hso htime h3
    unfold serviceReliableSend
    rw [if_neg (by simp [ha]), if_neg (by simp [hso]),
      if_neg (by simpa [CMD_ACK_TIMEOUT_MS] using htime),
      if_pos (by simpa [CMD_MAX_RETRY] using h3)]
    exact ⟨rfl, rfl⟩

/-- Witness for C6: a BUSY attempt on a fresh active command leaves retry and
last_send_ms alone; an exhausted command (retry = 3, timeout expired) prints
the FAIL line and deactivates. -/
theorem reliable_retry_budget_witness :
    ((serviceReliableSend
        ⟨true, 0x10, 9, [], 0, 0, false, 0, 0⟩ 50 TxResult.busy).1.retry = 0 ∧
      (serviceReliableSend
        ⟨true, 0x10, 9, [], 0, 0, false, 0, 0⟩ 50 TxResult.busy).1.last_send_ms = 0) ∧
    ((serviceReliableSend
        ⟨true, 0x10, 9, [], 0, 3, true, 0, 0⟩ 500 TxResult.ok).2
          = [CmdLine.failNoAck] ∧
      (serviceReliableSend
        ⟨true, 0x10, 9, [], 0, 3, true, 0, 0⟩ 500 TxResult.ok).1.active = false) :=
  ⟨(reliable_retry_budget ⟨true, 0x10, 9, [], 0, 0, false, 0, 0⟩ 50
      TxResult.busy).1 rfl,
   (reliable_retry_budget ⟨true, 0x10, 9, [], 0, 3, true, 0, 0⟩ 500
      TxResult.ok).2.2.2 rfl rfl (by decide) (by decide)⟩

/-- Claim C7 (amended): every submission issues `seq = g_tx_seq` and then
increments the counter as a plain `uint8_t` (so it wraps 255 → 0 and 0 is
reused; there is no skip of 0), attempts one radio TX immediately (recorded
in `sent_once`/`last_send_ms` on OK or FAIL, `busy_since_ms` on BUSY), and
installs the PendingCommand with `active = true` exactly when the msg_type
is in the ack-expecting set {0x10, 0x12, 0x11}. -/
theorem reliable_submit (g : GroundState) (msg_type : Nat) (payload : List Nat)
    (now : Nat) (r : TxResult) (hpl : payload.length ≤ 220) :
    (startReliableSend g msg_type payload now r).1.tx_seq = (g.tx_seq + 1) % 256 ∧
    (startReliableSend g msg_type payload now r).1.pending.seq = g.tx_seq % 256 ∧
    (startReliableSend g msg_type payload now r).1.pending.active
      = expectsAck msg_type ∧
    (startReliableSend g msg_type payload now r).1.pending.msg_type = msg_type ∧
    ((r = TxResult.ok ∨ r = TxResult.fail) →
      (startReliableSend g msg_type payload now r).1.pending.sent_once = true ∧
      (startReliableSend g msg_type payload now r).1.pending.last_send_ms = now) ∧
    (r = TxResult.busy →
      (startReliableSend g msg_type payload now r).1.pending.sent_once = false ∧
      (startReliableSend g msg_type payload now r).1.pending.busy_since_ms = now) := by
  have henc : FrameCodec.encodeChecked msg_type (g.tx_seq % 256) payload 256
      = some (FrameCodec.encode msg_type (g.tx_seq % 256) payload) := by
    unfold FrameCodec.encodeChecked
    rw [Nat.mod_eq_of_lt (by omega)]
    rw [if_neg (by omega)]
  simp only [startReliableSend, henc]
  cases r
  · exact ⟨rfl, rfl, rfl, rfl, fun _ => ⟨rfl, rfl⟩,
      fun h => absurd h (by decide)⟩
  · exact ⟨rfl, rfl, rfl, rfl,
      fun h => by rcases h with h | h <;> exact absurd h (by decide),
      fun _ => ⟨rfl, rfl⟩⟩
  · exact ⟨rfl, rfl, rfl, rfl, fun _ => ⟨rfl, rfl⟩,
      fun h => absurd h (by decide)⟩

/-- Witness for C7 (amended): submitting ManualCmd 0x12 from counter 5 with
a BUSY radio issues seq 5, advances the counter to 6, arms the pending
command, and stamps `busy_since_ms`. -/
theorem reliable_submit_witness :
    (startReliableSend ⟨5, ⟨false, 0, 0, [], 0, 0, false, 0, 0⟩⟩ 0x12
        [1, 0, 0, 0, 0, 0, 0, 0, 0, 0, 0, 0, 0] 7 TxResult.busy).1.tx_seq
      = (5 + 1) % 256 ∧
    (startReliableSend ⟨5, ⟨false, 0, 0, [], 0, 0, false, 0, 0⟩⟩ 0x12
        [1, 0, 0, 0, 0, 0, 0, 0, 0, 0, 0, 0, 0] 7 TxResult.busy).1.pending.active
      = expectsAck 0x12 ∧
    (startReliableSend ⟨5, ⟨false, 0, 0, [], 0, 0, false, 0, 0⟩⟩ 0x12
        [1, 0, 0, 0, 0, 0, 0, 0, 0, 0, 0, 0, 0] 7
        TxResult.busy).1.pending.busy_since_ms = 7 :=
  ⟨(reliable_submit _ _ _ _ _ (by decide)).1,
   (reliable_submit _ _ _ _ _ (by decide)).2.2.1,
   ((reliable_submit _ _ _ _ _ (by decide)).2.2.2.2.2 rfl).2⟩

set_option maxRecDepth 10000 in
/-- Counterexample to claim C7 as stated: the sequence counter is a plain
`uint8_t` post-increment with no skip of zero.  Submitting from
`g_tx_seq = 255` issues seq 255 and wraps the counter to 0, and the NEXT
submission issues seq 0, not 1. -/
theorem reliable_submit_counterexample :
    (startReliableSend ⟨255, ⟨false, 0, 0, [], 0, 0, false, 0, 0⟩⟩ 0x10 [1] 0
        TxResult.ok).1.pending.seq = 255 ∧
    (startReliableSend
        (startReliableSend ⟨255, ⟨false, 0, 0, [], 0, 0, false, 0, 0⟩⟩ 0x10 [1] 0
          TxResult.ok).1
        0x10 [1] 0 TxResult.ok).1.pending.seq = 0 := by
  exact ⟨by decide, by decide⟩

namespace Proto

/-- Message-type codes from `proto/Protocol.h`. -/
def MSG_TELEM_V1 : Nat := 0x01

/-- ModeSwitch message code. -/
def MSG_MODE_SWITCH : Nat := 0x10

/-- Setpoints message code. -/
def MSG_SETPOINTS_V1 : Nat := 0x11

/-- ManualCmd message code. -/
def MSG_MANUAL_CMD_V1 : Nat := 0x12

/-- Ack message code. -/
def MSG_ACK : Nat := 0x20

/-- Heartbeat message code. -/
def MSG_HEARTBEAT : Nat := 0x23

/-- Ack status OK. -/
def ACK_OK : Nat := 0

/-- Ack status ERR. -/
def ACK_ERR : Nat := 1

end Proto

/-- Decode an IEEE-754 single from its 32-bit pattern into the `Flt` model:
exponent 255 (NaN and infinities, i.e. every non-finite pattern) becomes
`none`; otherwise the exact value. -/
def bitsToFlt (w : Nat) : Flt :=
  let sign : Nat := w / 2 ^ 31 % 2
  let ex : Nat := w / 2 ^ 23 % 256
  let mant : Nat := w % 2 ^ 23
  if ex = 255 then none
  else
    let mag : ℚ :=
      if ex = 0 then (mant : ℚ) / 2 ^ 149
      else ((2 ^ 23 + mant : Nat) : ℚ) * 2 ^ ex / 2 ^ 150
    some (if sign = 1 then -mag else mag)

/-- `readFloatLE(buf, offset)` from `drivers/UartLink.cpp`: assemble the
little-endian u32 and reinterpret it as a float. -/
def readFloatLE (payload : List Nat) (off : Nat) : Flt :=
  bitsToFlt (payload.getD off 0 + 256 * payload.getD (off + 1) 0 +
    65536 * payload.getD (off + 2) 0 + 16777216 * payload.getD (off + 3) 0)

/-- One Ack frame written by `UartLink::sendAck`: the payload
`(acked_msg_type, status)` sent with the incoming frame's sequence. -/
structure AckOut where
  acked_msg_type : Nat
  seq : Nat
  status : Nat
deriving DecidableEq, Repr

/-- `UartLink::handleFrame` from
`Nano33BLE_Controller/src/drivers/UartLink.cpp`: refresh link liveness on
every CRC-valid frame, then dispatch by msg_type.  Heartbeat: silent.
ModeSwitch/ManualCmd/Setpoints: exact payload-size check, Ack(OK) on
success, Ack(ERR) on a size mismatch (or an unknown mode value); unknown
msg_type: silently ignored.  Payload sizes are those of the packed structs:
PayloadModeSwitch = 1, PayloadManualCmdV1 = 13, PayloadSetpointsV1 = 17. -/
def handleFrame (state : ControlState) (f : FrameCodec.FrameView)
    (now_ms : Nat) : ControlState × List AckOut :=
  let st := { state with last_cmd_ms := now_ms, link_alive := true,
                         last_link_heartbeat_ms := now_ms }
  if f.msg_type = Proto.MSG_HEARTBEAT then (st, [])
  else if f.msg_type = Proto.MSG_MODE_SWITCH then
    if f.payload_len = 1 then
      let m := f.payload.getD 0 0
      if m = 0 then
        ({ st with mode := ControlMode.SAFE },
          [⟨f.msg_type, f.seq, Proto.ACK_OK⟩])
      else if m = 1 then
        ({ st with mode := ControlMode.MANUAL },
          [⟨f.msg_type, f.seq, Proto.ACK_OK⟩])
      else if m = 2 then
        ({ st with mode := ControlMode.AUTO },
          [⟨f.msg_type, f.seq, Proto.ACK_OK⟩])
      else (st, [⟨f.msg_type, f.seq, Proto.ACK_ERR⟩])
    else (st, [⟨f.msg_type, f.seq, Proto.ACK_ERR⟩])
  else if f.msg_type = Proto.MSG_MANUAL_CMD_V1 then
    if f.payload_len = 13 then
      let flags := f.payload.getD 0 0
      ({ st with
          manual_cmd :=
            { has_heater_cmd := flags &&& 1 ≠ 0
              heater_power_pct := readFloatLE f.payload 1
              has_valve_cmd := flags &&& 2 ≠ 0
              valve_opening_pct := readFloatLE f.payload 5
              has_pump_temp_cmd := flags &&& 4 ≠ 0
              pump_target_temp_c := readFloatLE f.payload 9 },
          last_manual_ms := now_ms },
        [⟨f.msg_type, f.seq, Proto.ACK_OK⟩])
    else (st, [⟨f.msg_type, f.seq, Proto.ACK_ERR⟩])
  else if f.msg_type = Proto.MSG_SETPOINTS_V1 then
    if f.payload_len = 17 then
      let mask := f.payload.getD 16 0
      ({ st with
          setpoints :=
            { st.setpoints with
                target_temp_c := readFloatLE f.payload 0
                target_pressure_pa := readFloatLE f.payload 4
                target_valve_opening_pct := readFloatLE f.payload 8
                target_pump_temp_c := readFloatLE f.payload 12
                enable_temp_ctrl := mask &&& 1 ≠ 0
                enable_pressure_ctrl := mask &&& 2 ≠ 0
                enable_valve_ctrl := mask &&& 4 ≠ 0 },
          last_setpoint_ms := now_ms },
        [⟨f.msg_type, f.seq, Proto.ACK_OK⟩])
    else (st, [⟨f.msg_type, f.seq, Proto.ACK_ERR⟩])
  else (st, [])

/-- Claim C9: for every CRC-valid frame delivered to the controller's link
handler: a known command type (ModeSwitch 0x10, Setpoints 0x11, ManualCmd
0x12) with the wrong payload length is answered by exactly one Ack(ERR)
carrying the frame's sequence; an unknown msg_type gets no Ack at all; a
Heartbeat gets no Ack but still refreshes link liveness. -/
theorem link_handler_acks (state : ControlState) (f : FrameCodec.FrameView)
    (now : Nat) :
    (f.msg_type = 0x10 → f.payload_len ≠ 1 →
      (handleFrame state f now).2 = [⟨f.msg_type, f.seq, 1⟩]) ∧
    (f.msg_type = 0x12 → f.payload_len ≠ 13 →
      (handleFrame state f now).2 = [⟨f.msg_type, f.seq, 1⟩]) ∧
    (f.msg_type = 0x11 → f.payload_len ≠ 17 →
      (handleFrame state f now).2 = [⟨f.msg_type, f.seq, 1⟩]) ∧
    (f.msg_type ≠ 0x10 → f.msg_type ≠ 0x11 → f.msg_type ≠ 0x12 →
      f.msg_type ≠ 0x23 → (handleFrame state f now).2 = []) ∧
    (f.msg_type = 0x23 →
      (handleFrame state f now).2 = [] ∧
      (handleFrame state f now).1.link_alive = true ∧
      (handleFrame state f now).1.last_link_heartbeat_ms = now) := by
  refine ⟨?_, ?_, ?_, ?_, ?_⟩
  · intro hmt hlen
    simp [handleFrame, hmt, hlen, Proto.MSG_HEARTBEAT, Proto.MSG_MODE_SWITCH,
      Proto.ACK_ERR]
  · intro hmt hlen
    simp [handleFrame, hmt, hlen, Proto.MSG_HEARTBEAT, Proto.MSG_MODE_SWITCH,
      Proto.MSG_MANUAL_CMD_V1, Proto.ACK_ERR]
  · intro hmt hlen
    simp [handleFrame, hmt, hlen, Proto.MSG_HEARTBEAT, Proto.MSG_MODE_SWITCH,
      Proto.MSG_MANUAL_CMD_V1, Proto.MSG_SETPOINTS_V1, Proto.ACK_ERR]
  · intro h1 h2 h3 h4
    simp [handleFrame, Proto.MSG_HEARTBEAT, Proto.MSG_MODE_SWITCH,
      Proto.MSG_MANUAL_CMD_V1, Proto.MSG_SETPOINTS_V1, h1, h2, h3, h4]
  · intro hmt
    refine ⟨?_, ?_, ?_⟩ <;>
      simp [handleFrame, hmt, Proto.MSG_HEARTBEAT]

/-- Witness for C9: a ModeSwitch frame with a 2-byte payload draws Ack(ERR)
with its sequence 7; msg_type 0x42 draws nothing; a Heartbeat refreshes
liveness at 321 ms without an Ack. -/
theorem link_handler_acks_witness :
    (handleFrame
        ⟨ControlMode.SAFE, ⟨none, none, none, none, true, false, false, false⟩,
          ⟨false, none, false, none, false, none⟩, 0, 0, 0, false, 0⟩
        ⟨0x10, 7, [1, 2], 2⟩ 321).2 = [⟨0x10, 7, 1⟩] ∧
    (handleFrame
        ⟨ControlMode.SAFE, ⟨none, none, none, none, true, false, false, false⟩,
          ⟨false, none, false, none, false, none⟩, 0, 0, 0, false, 0⟩
        ⟨0x42, 7, [], 0⟩ 321).2 = [] ∧
    (handleFrame
        ⟨ControlMode.SAFE, ⟨none, none, none, none, true, false, false, false⟩,
          ⟨false, none, false, none, false, none⟩, 0, 0, 0, false, 0⟩
        ⟨0x23, 7, [], 0⟩ 321).1.last_link_heartbeat_ms = 321 :=
  ⟨(link_handler_acks _ _ _).1 rfl (by decide),
   (link_handler_acks _ _ _).2.2.2.1 (by decide) (by decide) (by decide) (by decide),
   ((link_handler_acks _ _ _).2.2.2.2 rfl).2.2⟩
